import Mathlib

/-!
# Verification of the web-schedly sync and conflict-detection core

Shallow embedding of the conflict engine (`detectScheduleConflicts` and
`generateAlternativeTimes` from the schedule-conflict service) and of the
notification/sync service (`handleSyncRequest`, `handleSyncUpdate`,
`broadcast`, and the connected-client registry from the notification
service), together with theorems settling the frozen claims about them.

Modelling conventions:
* JavaScript `Date` values are integer milliseconds on a timezone-free
  timeline; `getHours`, `setHours(9,0,0,0)` and `startOfDay` are expressed
  with integer division/modulus by the day and hour lengths.
* The JS `Map` used for the client registry and the sync history is an
  association list in insertion order; `Map.set` overwrites in place,
  `Map.delete` removes, `Map.forEach` iterates in list order.
* Outbound socket traffic is reified as a list of (recipient deviceId,
  message) pairs returned next to the updated service state.
* The database is passed in as the list of rows the drizzle query ranges
  over; a throwing query is an `Except.error`.
-/

namespace WebSchedly

/-- One row of the `schedules` table (the fields read by the modelled code). -/
structure Schedule where
  id : Int
  userId : Int
  title : String
  startTime : Int
  endTime : Int
  priority : String
deriving DecidableEq

/-- `SelectSchedule` in the source is the row type of the `schedules` table. -/
abbrev SelectSchedule := Schedule

/-- `Partial<SelectSchedule>` as consumed by `detectScheduleConflicts`:
the candidate entry, whose `id` may be absent and whose `startTime!` /
`endTime!` are asserted present. -/
structure PartialSchedule where
  id : Option Int
  startTime : Int
  endTime : Int
deriving DecidableEq

/-- Element type of `ConflictInfo.conflictingSchedules`. -/
structure ConflictDetail where
  id : Int
  title : String
  startTime : Int
  endTime : Int
  overlapDuration : Int
  priority : String
deriving DecidableEq

/-- Element type of `ConflictInfo.alternativeTimes`. -/
structure AltTime where
  startTime : Int
  endTime : Int
  benefit : String
deriving DecidableEq

/-- Result record of `detectScheduleConflicts`. -/
structure ConflictInfo where
  hasConflict : Bool
  conflictingSchedules : List ConflictDetail
  severity : String
  suggestion : String
  alternativeTimes : Option (List AltTime)
deriving DecidableEq

/-- The three-clause interval test used by the `existingSchedules.filter`
callback and by the slot scan in `generateAlternativeTimes`:
`(newStart >= existingStart && newStart < existingEnd) ||
 (newEnd > existingStart && newEnd <= existingEnd) ||
 (newStart <= existingStart && newEnd >= existingEnd)`. -/
def overlapsJS (a b c d : Int) : Bool :=
  (decide (a ≥ c) && decide (a < d)) ||
  (decide (b > c) && decide (b ≤ d)) ||
  (decide (a ≤ c) && decide (b ≥ d))

/-- The filter callback of `detectScheduleConflicts`: skip the entry being
edited (`schedule.id === existing.id`), otherwise apply the overlap test. -/
def conflictFilter (schedule : PartialSchedule) (existing : SelectSchedule) : Bool :=
  if schedule.id == some existing.id then false
  else overlapsJS schedule.startTime schedule.endTime existing.startTime existing.endTime

/-- `Math.ceil(x / 60000)` on integer milliseconds. -/
def minutesCeil (x : Int) : Int := -(-x / 60000)

/-- `overlapDuration` computed for one conflicting pair:
`Math.ceil((min(ends) - max(starts)) / 60000)`. -/
def overlapDurationOf (a b c d : Int) : Int := minutesCeil (min b d - max a c)

/-- One element of `conflictingSchedules` as built in the `conflicts.map`
callback; `conflict.priority || 'normal'` defaults a falsy priority. -/
def mkDetail (schedule : PartialSchedule) (conflict : SelectSchedule) : ConflictDetail :=
  { id := conflict.id
    title := conflict.title
    startTime := conflict.startTime
    endTime := conflict.endTime
    overlapDuration :=
      overlapDurationOf schedule.startTime schedule.endTime conflict.startTime conflict.endTime
    priority := if conflict.priority == "" then "normal" else conflict.priority }

/-- `severityFactors.totalOverlap`: sum of the overlap durations. -/
def totalOverlapOf (l : List ConflictDetail) : Int :=
  l.foldl (fun sum c => sum + c.overlapDuration) 0

/-- Number of conflicting entries carrying the given priority tag
(the `switch` in the `severityFactors` accumulation). -/
def countPriority (l : List ConflictDetail) (p : String) : Nat :=
  (l.filter (fun c => c.priority == p)).length

/-- The severity classification of the conflict engine:
high when total overlap exceeds 120 minutes or a high-priority conflict
exists, else medium when total overlap exceeds 60 minutes or more than one
normal-priority conflict exists, else low. -/
def severityOf (l : List ConflictDetail) : String :=
  if 120 < totalOverlapOf l ∨ 0 < countPriority l "high" then "high"
  else if 60 < totalOverlapOf l ∨ 1 < countPriority l "normal" then "medium"
  else "low"

/-- `(高优先级)` / `(低优先级)` tag rendered next to a conflict line. -/
def priorityText (p : String) : String :=
  if p == "high" then "(高优先级)"
  else if p == "low" then "(低优先级)" else ""

/-- The per-conflict lines of the suggestion text. -/
def conflictLines (l : List ConflictDetail) : String :=
  l.foldl
    (fun acc c =>
      acc ++ "- 与\"" ++ c.title ++ "\"" ++ priorityText c.priority ++
        "重叠" ++ toString c.overlapDuration ++ "分钟\n")
    "检测到以下时间冲突：\n"

/-- Remediation paragraph for severity `high`. -/
def adviceHigh : String :=
  "\n建议处理方案：\n" ++
  "1. 考虑调整当前日程时间，避免与高优先级日程冲突\n" ++
  "2. 如果时间无法调整，建议与相关人员协调，重新安排部分日程\n" ++
  "3. 可以考虑拆分当前日程，分多个时段进行"

/-- Remediation paragraph for severity `medium`. -/
def adviceMedium : String :=
  "\n建议处理方案：\n" ++
  "1. 评估是否可以调整部分重叠时间段\n" ++
  "2. 考虑精简部分日程内容，缩短所需时间\n" ++
  "3. 如时间充裕，可以设置缓冲时间避免紧密衔接"

/-- Remediation paragraph for severity `low`. -/
def adviceLow : String :=
  "\n建议处理方案：\n" ++
  "1. 当前冲突影响较小，可以保持现有安排\n" ++
  "2. 建议提前5-10分钟开始准备，确保能顺利切换任务"

/-- Full suggestion text of the conflicted branch. -/
def buildSuggestion (l : List ConflictDetail) (severity : String) : String :=
  conflictLines l ++
    (if severity == "high" then adviceHigh
     else if severity == "medium" then adviceMedium
     else adviceLow)

/-- Millisecond length of a day / an hour / thirty minutes. -/
def dayMs : Int := 86400000

/-- Floor a timestamp to the start of its day (`setHours(0,0,0,0)` on the
timezone-free timeline). -/
def floorDayMs (t : Int) : Int := t - t % dayMs

/-- `Date.prototype.getHours` on the timezone-free timeline. -/
def getHoursMs (t : Int) : Int := (t / 3600000) % 24

/-- Benefit label chosen from the starting hour of a candidate slot. -/
def benefitFor (hour : Int) : String :=
  if 9 ≤ hour ∧ hour ≤ 11 then "上午时段，精力充沛，适合重要工作"
  else if 14 ≤ hour ∧ hour ≤ 16 then "下午黄金时段，注意力较集中"
  else if 12 ≤ hour ∧ hour ≤ 13 then "建议避开午餐时间"
  else "常规工作时段，适合一般性工作"

/-- The `existingSchedules.some(...)` check of the slot scan: does the
candidate slot hit any existing entry under the three-clause test? -/
def hasConflictAt (pStart pEnd : Int) (existing : List SelectSchedule) : Bool :=
  existing.any (fun e => overlapsJS pStart pEnd e.startTime e.endTime)

/-- The body of the `while (currentTime < dayEnd)` loop of
`generateAlternativeTimes`, one recursive step per 30-minute slot start;
a slot is pushed when it is conflict-free and ends by `dayEnd`, and the
loop breaks once three alternatives have been collected. -/
def altLoop (existing : List SelectSchedule) (duration dayEnd : Int) :
    List Int → List AltTime → List AltTime
  | [], acc => acc
  | t :: ts, acc =>
    let pEnd := t + duration
    if hasConflictAt t pEnd existing = false ∧ pEnd ≤ dayEnd then
      let acc' := acc ++ [⟨t, pEnd, benefitFor (getHoursMs t)⟩]
      if 3 ≤ acc'.length then acc'
      else altLoop existing duration dayEnd ts acc'
    else altLoop existing duration dayEnd ts acc

/-- `generateAlternativeTimes(schedule, existingSchedules)`: scan the fixed
09:00–18:00 window of the candidate's day in 30-minute steps (the `while`
loop visits exactly the 18 starts `dayStart + k*30min`, `k < 18`). -/
def generateAlternativeTimes (schedule : PartialSchedule)
    (existingSchedules : List SelectSchedule) : List AltTime :=
  let duration := schedule.endTime - schedule.startTime
  let dayStart := floorDayMs schedule.startTime + 9 * 3600000
  let dayEnd := floorDayMs schedule.startTime + 18 * 3600000
  altLoop existingSchedules duration dayEnd
    ((List.range 18).map (fun k => dayStart + 1800000 * (k : Int))) []

/-- The fixed result returned when no entry conflicts. -/
def noConflictInfo : ConflictInfo :=
  { hasConflict := false
    conflictingSchedules := []
    severity := "low"
    suggestion := "没有检测到时间冲突。"
    alternativeTimes := none }

/-- `detectScheduleConflicts(schedule, existingSchedules)` of the conflict
engine (the priority-aware variant with alternative-slot search). -/
def detectScheduleConflicts (schedule : PartialSchedule)
    (existingSchedules : List SelectSchedule) : ConflictInfo :=
  let conflicts := existingSchedules.filter (conflictFilter schedule)
  if conflicts.isEmpty then noConflictInfo
  else
    let conflictingSchedules := conflicts.map (mkDetail schedule)
    let severity := severityOf conflictingSchedules
    { hasConflict := true
      conflictingSchedules := conflictingSchedules
      severity := severity
      suggestion := buildSuggestion conflictingSchedules severity
      alternativeTimes := some (generateAlternativeTimes schedule existingSchedules) }

/-- Modelled from the spec: the strict-overlap test the specification
states for conflict detection, `candidate.start < other.end AND
candidate.end > other.start`; used only to compare the implementation's
formulation against the spec's. -/
def specStrictOverlap (a b c d : Int) : Bool :=
  decide (a < d) && decide (b > c)

/-- Modelled from the spec: a bounded most-recent-N change log — append the
incoming records, then keep only the newest `n`; used only to compare the
implementation's history handling against the spec's. -/
def specAppendBounded (n : Nat) (old incoming : List α) : List α :=
  let l := old ++ incoming
  l.drop (l.length - n)

/-! ## JS `Map` model

Association list in insertion order: `set` overwrites the entry in place
when the key is present (keeping its position) and appends otherwise;
`delete` removes; `forEach` iterates in list order. -/

/-- `Map.prototype.get`. -/
def mapGet (m : List (String × α)) (k : String) : Option α :=
  (m.find? (fun e => e.1 == k)).map Prod.snd

/-- `Map.prototype.set`. -/
def mapSet (m : List (String × α)) (k : String) (v : α) : List (String × α) :=
  if m.any (fun e => e.1 == k) then
    m.map (fun e => if e.1 == k then (k, v) else e)
  else m ++ [(k, v)]

/-- `Map.prototype.delete`. -/
def mapDelete (m : List (String × α)) (k : String) : List (String × α) :=
  m.filter (fun e => e.1 != k)

/-! ## Notification service -/

/-- Per-device notification preferences. -/
structure Preferences where
  sound : Bool
  position : String
  duration : Int
deriving DecidableEq

/-- A `ConnectedClient` registry entry; `isOpen` models
`ws.readyState === WebSocket.OPEN` of the stored transport handle. -/
structure ConnectedClient where
  isOpen : Bool
  platform : String
  deviceId : String
  lastSyncTimestamp : Option Int
  preferences : Option Preferences
deriving DecidableEq

/-- One record of a `sync_update`'s `changes` array; the `data` payload is
kept as an uninterpreted string. -/
structure SyncChange where
  type : String
  data : String
  timestamp : String
deriving DecidableEq

/-- Style block of a notification payload; `position` is absent from the
default templates and only filled by the per-device preference merge. -/
structure Style where
  variant : String
  duration : Int
  icon : String
  sound : Bool
  position : Option String
deriving DecidableEq

/-- A `NotificationPayload` as sent to one device. -/
structure NotifPayload where
  type : String
  title : String
  message : String
  priority : Option String
  timestamp : Int
  style : Style
deriving DecidableEq

/-- An outbound message: a styled notification, a `sync_response`, or a
`sync_update` envelope. -/
inductive OutMsg where
  | notif (p : NotifPayload)
  | syncResponse (deviceId platform : String) (timestamp : Int)
      (schedules : List Schedule) (lastSyncTimestamp : Int)
  | syncUpdate (deviceId platform : String) (timestamp : Int)
      (changes : List SyncChange)
deriving DecidableEq

/-- Whether an outbound message is a `sync_update` envelope. -/
def OutMsg.isSyncUpd : OutMsg → Bool
  | .syncUpdate _ _ _ _ => true
  | _ => false

/-- The mutable state of the `NotificationService`: the `clients` registry
and the `syncHistory` map. -/
structure ServiceState where
  clients : List (String × ConnectedClient)
  syncHistory : List (String × List SyncChange)
deriving DecidableEq

/-- `defaultStyles.sync`. -/
def syncStyle : Style := ⟨"default", 3000, "refresh-cw", false, none⟩

/-- `defaultStyles[type]` for the five notification types. -/
def defaultStyleFor (t : String) : Style :=
  if t == "create" then ⟨"success", 5000, "plus-circle", true, none⟩
  else if t == "update" then ⟨"default", 3000, "pencil", false, none⟩
  else if t == "delete" then ⟨"destructive", 5000, "trash", true, none⟩
  else if t == "reminder" then ⟨"warning", 10000, "bell", true, none⟩
  else syncStyle

/-- The failure notification of `handleSyncRequest`'s catch block. -/
def syncFailPayload (now : Int) : NotifPayload :=
  ⟨"sync", "同步失败", "无法完成数据同步，请稍后重试", none, now,
    { syncStyle with variant := "destructive" }⟩

/-- The completion notification of `handleSyncRequest`'s success path. -/
def syncDonePayload (now : Int) : NotifPayload :=
  ⟨"sync", "同步完成", "日程数据已同步", none, now, syncStyle⟩

/-- The confirmation notification of `handleSyncUpdate`'s success path. -/
def syncUpdateDonePayload (now : Int) : NotifPayload :=
  ⟨"sync", "更新同步", "变更已同步到其他设备", none, now, syncStyle⟩

/-- `startOfDay(new Date())` of date-fns on the timezone-free timeline. -/
def startOfDayMs (t : Int) : Int := t - t % dayMs

/-- `getSchedulesForSync(startDate, endDate?)`: the drizzle query filters
rows by `startTime >= startDate`, and also by `startTime <= endDate` when
an end date is given. -/
def getSchedulesForSync (rows : List Schedule) (startDate : Int)
    (endDate : Option Int) : List Schedule :=
  rows.filter (fun s =>
    match endDate with
    | some e => decide (startDate ≤ s.startTime) && decide (s.startTime ≤ e)
    | none => decide (startDate ≤ s.startTime))

/-- Window-start resolution of `handleSyncRequest`:
`lastSyncTimestamp ? new Date(lastSyncTimestamp) : startOfDay(new Date())`. -/
def syncWindowStart (lastSyncTimestamp : Option Int) (now : Int) : Int :=
  match lastSyncTimestamp with
  | some t => t
  | none => startOfDayMs now

/-- `handleSyncRequest(deviceId, lastSyncTimestamp?)`. The database rows
arrive as an `Except`: an `error` is a throwing query, caught by the
`catch` block which sends the failure notification to the requester;
on success the requester receives the `sync_response` (entries whose
`startTime` is at or after the window start, plus a fresh server-clock
`lastSyncTimestamp`) followed by the completion notification, and its
stored `lastSyncTimestamp` is updated. Nothing happens when the device is
unregistered or its socket is not open. -/
def handleSyncRequest (st : ServiceState) (rows : Except Unit (List Schedule))
    (deviceId : String) (lastSyncTimestamp : Option Int) (now : Int) :
    ServiceState × List (String × OutMsg) :=
  match mapGet st.clients deviceId with
  | none => (st, [])
  | some client =>
    if client.isOpen = false then (st, [])
    else
      match rows with
      | .error _ => (st, [(deviceId, OutMsg.notif (syncFailPayload now))])
      | .ok all =>
        let startDate := syncWindowStart lastSyncTimestamp now
        let found := getSchedulesForSync all startDate none
        let client' := { client with lastSyncTimestamp := some now }
        ({ st with clients := mapSet st.clients deviceId client' },
         [(deviceId, OutMsg.syncResponse deviceId client.platform now found now),
          (deviceId, OutMsg.notif (syncDonePayload now))])

/-- `handleSyncUpdate(deviceId, changes)`: store the changes in
`syncHistory` via `Map.set`, fan the `sync_update` envelope out to every
other open client, then confirm to the originator. Nothing happens when
the device is unregistered or its socket is not open. -/
def handleSyncUpdate (st : ServiceState) (deviceId : String)
    (changes : List SyncChange) (now : Int) :
    ServiceState × List (String × OutMsg) :=
  match mapGet st.clients deviceId with
  | none => (st, [])
  | some client =>
    if client.isOpen = false then (st, [])
    else
      let st' := { st with syncHistory := mapSet st.syncHistory deviceId changes }
      let fanout := st.clients.filterMap (fun other =>
        if other.1 != deviceId && other.2.isOpen then
          some (other.1, OutMsg.syncUpdate deviceId client.platform now changes)
        else none)
      (st', fanout ++ [(deviceId, OutMsg.notif (syncUpdateDonePayload now))])

/-- `broadcast(payload)`: build the styled message and push it to every
open client, overlaying the client's stored preferences on the default
style template. (The source mutates one shared `message` object per
iteration; every registered client carries preferences, so each open
client receives its own merged style, as modelled here.) -/
def broadcast (st : ServiceState) (ptype title message : String)
    (priority : Option String) (now : Int) : List (String × OutMsg) :=
  let style := defaultStyleFor ptype
  st.clients.filterMap (fun entry =>
    if entry.2.isOpen then
      let merged :=
        match entry.2.preferences with
        | some pref =>
          { style with sound := pref.sound, position := some pref.position,
                       duration := pref.duration }
        | none => style
      some (entry.1, OutMsg.notif ⟨ptype, title, message, priority, now, merged⟩)
    else none)

/-! ## Map-model lemmas -/

theorem mapGet_mapSet_self (m : List (String × α)) (k : String) (v : α) :
    mapGet (mapSet m k v) k = some v := by
  unfold mapSet
  split
  · rename_i hany
    induction m with
    | nil => simp at hany
    | cons a m ih =>
      by_cases h : a.1 = k
      · simp [mapGet, h]
      · simp only [List.any_cons, Bool.or_eq_true, beq_iff_eq, h, false_or] at hany
        simp only [List.map_cons, beq_iff_eq, h, if_false]
        simpa [mapGet, List.find?_cons, h] using ih hany
  · rename_i hany
    induction m with
    | nil => simp [mapGet]
    | cons a m ih =>
      simp only [List.any_cons, Bool.or_eq_true, beq_iff_eq, not_or] at hany
      simp only [List.cons_append]
      simpa [mapGet, List.find?_cons, hany.1] using ih (by simpa using hany.2)

theorem find?_replace_ne (m : List (String × α)) (k k' : String) (v : α)
    (h : k' ≠ k) :
    (m.map (fun e => if e.1 == k then (k, v) else e)).find? (fun e => e.1 == k')
      = m.find? (fun e => e.1 == k') := by
  induction m with
  | nil => rfl
  | cons a m ih =>
    simp only [List.map_cons]
    by_cases ha : a.1 = k
    · rw [if_pos (by simpa using ha),
        List.find?_cons_of_neg _ (by simpa using Ne.symm h),
        List.find?_cons_of_neg _ (by simp [ha]; exact Ne.symm h)]
      exact ih
    · rw [if_neg (by simpa using ha)]
      by_cases ha' : a.1 = k'
      · rw [List.find?_cons_of_pos _ (by simpa using ha'),
          List.find?_cons_of_pos _ (by simpa using ha')]
      · rw [List.find?_cons_of_neg _ (by simpa using ha'),
          List.find?_cons_of_neg _ (by simpa using ha')]
        exact ih

theorem mapGet_append_single_ne (m : List (String × α)) (k k' : String) (v : α)
    (h : k' ≠ k) : mapGet (m ++ [(k, v)]) k' = mapGet m k' := by
  unfold mapGet
  induction m with
  | nil =>
    simp only [List.nil_append, List.find?_nil]
    rw [List.find?_cons_of_neg _ (by simpa using Ne.symm h)]
    rfl
  | cons a m ih =>
    by_cases ha' : a.1 = k'
    · rw [List.cons_append,
        List.find?_cons_of_pos _ (by simpa using ha'),
        List.find?_cons_of_pos _ (by simpa using ha')]
    · rw [List.cons_append,
        List.find?_cons_of_neg _ (by simpa using ha'),
        List.find?_cons_of_neg _ (by simpa using ha')]
      exact ih

theorem mapGet_mapSet_ne (m : List (String × α)) (k k' : String) (v : α)
    (h : k' ≠ k) : mapGet (mapSet m k v) k' = mapGet m k' := by
  unfold mapSet
  split
  · unfold mapGet
    rw [find?_replace_ne m k k' v h]
  · exact mapGet_append_single_ne m k k' v h

theorem keys_mapSet_of_mem (m : List (String × α)) (k : String) (v : α)
    (h : k ∈ m.map Prod.fst) :
    (mapSet m k v).map Prod.fst = m.map Prod.fst := by
  have hany : m.any (fun e => e.1 == k) = true := by
    simp only [List.any_eq_true, beq_iff_eq]
    obtain ⟨e, he, hk⟩ := List.mem_map.mp h
    exact ⟨e, he, hk⟩
  unfold mapSet
  rw [if_pos hany, List.map_map]
  apply List.map_congr_left
  intro e _
  by_cases he : e.1 = k <;> simp [he]

theorem keys_mapSet_of_not_mem (m : List (String × α)) (k : String) (v : α)
    (h : k ∉ m.map Prod.fst) :
    (mapSet m k v).map Prod.fst = m.map Prod.fst ++ [k] := by
  have hany : m.any (fun e => e.1 == k) = false := by
    simp only [List.any_eq_false, beq_iff_eq]
    intro e he hk
    exact h (List.mem_map.mpr ⟨e, he, hk⟩)
  unfold mapSet
  rw [if_neg (by simp [hany]), List.map_append]
  rfl

theorem nodup_keys_mapSet (m : List (String × α)) (k : String) (v : α)
    (h : (m.map Prod.fst).Nodup) : ((mapSet m k v).map Prod.fst).Nodup := by
  by_cases hk : k ∈ m.map Prod.fst
  · rw [keys_mapSet_of_mem m k v hk]; exact h
  · rw [keys_mapSet_of_not_mem m k v hk]
    refine h.append (List.nodup_singleton k) ?_
    intro a ha hmem
    rw [List.mem_singleton] at hmem
    subst hmem
    exact hk ha

theorem length_mapSet_of_mem (m : List (String × α)) (k : String) (v : α)
    (h : k ∈ m.map Prod.fst) : (mapSet m k v).length = m.length := by
  have := keys_mapSet_of_mem m k v h
  calc (mapSet m k v).length = ((mapSet m k v).map Prod.fst).length := by
        rw [List.length_map]
    _ = (m.map Prod.fst).length := by rw [this]
    _ = m.length := by rw [List.length_map]

theorem mem_mapDelete_key_ne (m : List (String × α)) (k : String)
    (x : String × α) (h : x ∈ mapDelete m k) : x.1 ≠ k := by
  unfold mapDelete at h
  have := (List.mem_filter.mp h).2
  simpa [bne_iff_ne] using this

/-! ## Conflict-engine lemmas -/

theorem spec_imp_overlapsJS (a b c d : Int)
    (h : specStrictOverlap a b c d = true) : overlapsJS a b c d = true := by
  simp only [specStrictOverlap, Bool.and_eq_true, decide_eq_true_eq] at h
  simp only [overlapsJS, Bool.or_eq_true, Bool.and_eq_true, decide_eq_true_eq]
  omega

/-! ## Claim C1 -/

/-- Candidate of the C1 counterexample: a zero-length entry at time 0. -/
def candC1 : PartialSchedule := ⟨some 1, 0, 0⟩

/-- Existing entry of the C1 counterexample: 0ms–60000ms. -/
def entC1 : SelectSchedule := ⟨2, 1, "A", 0, 60000, "normal"⟩

/-- C1, counterexample: the implementation's three-clause overlap test does
not agree with the spec's strict test on zero-length intervals — a
zero-length candidate sitting at the start of an existing entry is
reported as conflicting although `candidate.start < existing.end AND
candidate.end > existing.start` fails (`candidate.end > existing.start`
is `0 > 0`). -/
theorem C1_counterexample :
    (detectScheduleConflicts candC1 [entC1]).hasConflict = true ∧
    conflictFilter candC1 entC1 = true ∧
    specStrictOverlap candC1.startTime candC1.endTime
      entC1.startTime entC1.endTime = false := by
  refine ⟨by decide, by decide, by decide⟩

/-- C1, amended: for entries whose id differs from the candidate's, the
implementation reports a conflict iff the strict-overlap test holds OR a
degenerate zero-length interval touches the other one (a zero-length
candidate lying inside the closed existing interval, or a zero-length
existing entry lying inside the closed candidate interval); on intervals
of positive length the implementation agrees exactly with the strict
test, so touching endpoints of positive-length intervals never conflict. -/
theorem C1_overlap_amended (schedule : PartialSchedule) (e : SelectSchedule)
    (hid : schedule.id ≠ some e.id)
    (hab : schedule.startTime ≤ schedule.endTime)
    (hcd : e.startTime ≤ e.endTime) :
    (conflictFilter schedule e = true ↔
      (specStrictOverlap schedule.startTime schedule.endTime
          e.startTime e.endTime = true ∨
        (schedule.startTime = schedule.endTime ∧
          e.startTime ≤ schedule.startTime ∧ schedule.startTime ≤ e.endTime) ∨
        (e.startTime = e.endTime ∧
          schedule.startTime ≤ e.startTime ∧ e.startTime ≤ schedule.endTime))) ∧
    (schedule.startTime < schedule.endTime → e.startTime < e.endTime →
      (conflictFilter schedule e = true ↔
        specStrictOverlap schedule.startTime schedule.endTime
          e.startTime e.endTime = true)) := by
  have hfil : conflictFilter schedule e =
      overlapsJS schedule.startTime schedule.endTime e.startTime e.endTime := by
    unfold conflictFilter
    rw [if_neg (by simpa using hid)]
  rw [hfil]
  simp only [overlapsJS, specStrictOverlap, Bool.or_eq_true, Bool.and_eq_true,
    decide_eq_true_eq]
  constructor
  · constructor
    · intro h
      omega
    · intro h
      omega
  · intro h1 h2
    constructor
    · intro h
      omega
    · intro h
      omega

/-- Concrete candidate used by the C1 witness. -/
def candC1w : PartialSchedule := ⟨some 1, 0, 3600000⟩

/-- Concrete existing entry used by the C1 witness. -/
def entC1w : SelectSchedule := ⟨2, 1, "B", 1800000, 5400000, "normal"⟩

/-- Witness for `C1_overlap_amended` at a concrete overlapping pair. -/
theorem C1_overlap_amended_witness :
    (conflictFilter candC1w entC1w = true ↔
      (specStrictOverlap candC1w.startTime candC1w.endTime
          entC1w.startTime entC1w.endTime = true ∨
        (candC1w.startTime = candC1w.endTime ∧
          entC1w.startTime ≤ candC1w.startTime ∧ candC1w.startTime ≤ entC1w.endTime) ∨
        (entC1w.startTime = entC1w.endTime ∧
          candC1w.startTime ≤ entC1w.startTime ∧ entC1w.startTime ≤ candC1w.endTime))) ∧
    (candC1w.startTime < candC1w.endTime → entC1w.startTime < entC1w.endTime →
      (conflictFilter candC1w entC1w = true ↔
        specStrictOverlap candC1w.startTime candC1w.endTime
          entC1w.startTime entC1w.endTime = true)) :=
  C1_overlap_amended candC1w entC1w (by decide) (by decide) (by decide)

/-! ## Claim C2 -/

theorem detect_eq_noConflict (schedule : PartialSchedule)
    (existingSchedules : List SelectSchedule)
    (h : (existingSchedules.filter (conflictFilter schedule)).isEmpty = true) :
    detectScheduleConflicts schedule existingSchedules = noConflictInfo := by
  unfold detectScheduleConflicts
  rw [if_pos h]

theorem detect_eq_conflict (schedule : PartialSchedule)
    (existingSchedules : List SelectSchedule)
    (h : (existingSchedules.filter (conflictFilter schedule)).isEmpty = false) :
    detectScheduleConflicts schedule existingSchedules =
      { hasConflict := true
        conflictingSchedules :=
          (existingSchedules.filter (conflictFilter schedule)).map (mkDetail schedule)
        severity :=
          severityOf
            ((existingSchedules.filter (conflictFilter schedule)).map (mkDetail schedule))
        suggestion :=
          buildSuggestion
            ((existingSchedules.filter (conflictFilter schedule)).map (mkDetail schedule))
            (severityOf
              ((existingSchedules.filter (conflictFilter schedule)).map (mkDetail schedule)))
        alternativeTimes :=
          some (generateAlternativeTimes schedule existingSchedules) } := by
  unfold detectScheduleConflicts
  rw [if_neg (by simp [h])]

theorem severityOf_spec (l : List ConflictDetail) :
    (severityOf l = "high" ↔
      120 < totalOverlapOf l ∨ 0 < countPriority l "high") ∧
    (severityOf l = "medium" ↔
      ¬(120 < totalOverlapOf l ∨ 0 < countPriority l "high") ∧
        (60 < totalOverlapOf l ∨ 1 < countPriority l "normal")) ∧
    (severityOf l = "low" ↔
      ¬(120 < totalOverlapOf l ∨ 0 < countPriority l "high") ∧
        ¬(60 < totalOverlapOf l ∨ 1 < countPriority l "normal")) := by
  unfold severityOf
  split_ifs with h1 h2 <;> simp_all

/-- C2: for every conflicted candidate the severity is "high" iff the total
overlap exceeds 120 minutes or some conflicting entry has priority high;
otherwise "medium" iff the total overlap exceeds 60 minutes or more than
one normal-priority conflict exists; otherwise "low". -/
theorem C2_severity (schedule : PartialSchedule)
    (existing : List SelectSchedule)
    (h : (detectScheduleConflicts schedule existing).hasConflict = true) :
    ((detectScheduleConflicts schedule existing).severity = "high" ↔
      120 < totalOverlapOf (detectScheduleConflicts schedule existing).conflictingSchedules ∨
      0 < countPriority (detectScheduleConflicts schedule existing).conflictingSchedules
            "high") ∧
    ((detectScheduleConflicts schedule existing).severity = "medium" ↔
      ¬(120 < totalOverlapOf (detectScheduleConflicts schedule existing).conflictingSchedules ∨
          0 < countPriority (detectScheduleConflicts schedule existing).conflictingSchedules
                "high") ∧
      (60 < totalOverlapOf (detectScheduleConflicts schedule existing).conflictingSchedules ∨
        1 < countPriority (detectScheduleConflicts schedule existing).conflictingSchedules
              "normal")) ∧
    ((detectScheduleConflicts schedule existing).severity = "low" ↔
      ¬(120 < totalOverlapOf (detectScheduleConflicts schedule existing).conflictingSchedules ∨
          0 < countPriority (detectScheduleConflicts schedule existing).conflictingSchedules
                "high") ∧
      ¬(60 < totalOverlapOf (detectScheduleConflicts schedule existing).conflictingSchedules ∨
          1 < countPriority (detectScheduleConflicts schedule existing).conflictingSchedules
                "normal")) := by
  rcases hEmp : (existing.filter (conflictFilter schedule)).isEmpty with _ | _
  · rw [detect_eq_conflict schedule existing hEmp]
    exact severityOf_spec _
  · rw [detect_eq_noConflict schedule existing hEmp] at h
    simp [noConflictInfo] at h

/-- Candidate of the C2 scenario: 09:00–12:00 on day zero. -/
def candC2 : PartialSchedule := ⟨none, 32400000, 43200000⟩

/-- Existing entry A of the C2 scenario: 09:30–10:30, priority high. -/
def entAC2 : SelectSchedule := ⟨1, 1, "A", 34200000, 37800000, "high"⟩

/-- Existing entry B of the C2 scenario: 11:00–11:30, priority normal. -/
def entBC2 : SelectSchedule := ⟨2, 1, "B", 39600000, 41400000, "normal"⟩

/-- Witness for `C2_severity`: the spec's scenario — candidate 09:00–12:00
against a high-priority 09:30–10:30 entry and a normal-priority
11:00–11:30 entry (total overlap 90 < 120) is classified "high". -/
theorem C2_severity_witness :
    (detectScheduleConflicts candC2 [entAC2, entBC2]).severity = "high" :=
  (C2_severity candC2 [entAC2, entBC2] (by decide)).1.mpr (Or.inr (by decide))

/-! ## Claim C8 -/

theorem conflictFilter_imp_overlapsJS (schedule : PartialSchedule)
    (e : SelectSchedule) (h : conflictFilter schedule e = true) :
    overlapsJS schedule.startTime schedule.endTime e.startTime e.endTime = true := by
  unfold conflictFilter at h
  split at h
  · exact absurd h (by simp)
  · exact h

/-- Candidate of the C8 counterexample: a zero-length entry strictly inside
the existing one. -/
def candC8 : PartialSchedule := ⟨some 1, 30000, 30000⟩

/-- Existing entry of the C8 counterexample: 0ms–60000ms. -/
def entC8 : SelectSchedule := ⟨2, 1, "B", 0, 60000, "normal"⟩

/-- C8, counterexample: a zero-length candidate strictly inside an existing
entry is reported as conflicting with a computed overlap of 0 minutes even
though the two intervals do overlap under the spec's strict test — so
"equals 0 exactly when the intervals do not overlap" fails. -/
theorem C8_counterexample :
    (detectScheduleConflicts candC8 [entC8]).hasConflict = true ∧
    (detectScheduleConflicts candC8 [entC8]).conflictingSchedules.map
      (fun c => c.overlapDuration) = [0] ∧
    specStrictOverlap candC8.startTime candC8.endTime
      entC8.startTime entC8.endTime = true := by
  refine ⟨by decide, by decide, by decide⟩

/-- C8, amended: for every pair reported as conflicting (valid intervals),
the computed overlap `ceil((min(ends) − max(starts)) / 60000)` is symmetric
in the two entries, is ≥ 0, equals 0 exactly when the intersection
`min(ends) − max(starts)` has zero length (which can happen for conflicting
pairs only in degenerate zero-length cases), and never exceeds the shorter
entry's duration converted to minutes with the same ceiling. -/
theorem C8_overlap_minutes_amended (schedule : PartialSchedule)
    (e : SelectSchedule)
    (hab : schedule.startTime ≤ schedule.endTime)
    (hcd : e.startTime ≤ e.endTime)
    (hconf : conflictFilter schedule e = true) :
    overlapDurationOf schedule.startTime schedule.endTime e.startTime e.endTime =
      overlapDurationOf e.startTime e.endTime schedule.startTime schedule.endTime ∧
    0 ≤ overlapDurationOf schedule.startTime schedule.endTime e.startTime e.endTime ∧
    (overlapDurationOf schedule.startTime schedule.endTime e.startTime e.endTime = 0 ↔
      min schedule.endTime e.endTime = max schedule.startTime e.startTime) ∧
    overlapDurationOf schedule.startTime schedule.endTime e.startTime e.endTime ≤
      minutesCeil (min (schedule.endTime - schedule.startTime)
        (e.endTime - e.startTime)) := by
  have hov := conflictFilter_imp_overlapsJS schedule e hconf
  simp only [overlapsJS, Bool.or_eq_true, Bool.and_eq_true, decide_eq_true_eq] at hov
  unfold overlapDurationOf minutesCeil
  refine ⟨by rw [min_comm, max_comm], ?_, ?_, ?_⟩
  · omega
  · omega
  · omega

/-- Candidate used by the C8 witness: 10:00–11:00. -/
def candC8w : PartialSchedule := ⟨none, 36000000, 39600000⟩

/-- Existing entry used by the C8 witness: 10:30–11:30. -/
def entC8w : SelectSchedule := ⟨3, 1, "C", 37800000, 41400000, "normal"⟩

/-- Witness for `C8_overlap_minutes_amended` at a concrete conflicting
pair with a 30-minute overlap. -/
theorem C8_overlap_minutes_amended_witness :
    overlapDurationOf candC8w.startTime candC8w.endTime entC8w.startTime entC8w.endTime =
      overlapDurationOf entC8w.startTime entC8w.endTime candC8w.startTime candC8w.endTime ∧
    0 ≤ overlapDurationOf candC8w.startTime candC8w.endTime
          entC8w.startTime entC8w.endTime ∧
    (overlapDurationOf candC8w.startTime candC8w.endTime
        entC8w.startTime entC8w.endTime = 0 ↔
      min candC8w.endTime entC8w.endTime = max candC8w.startTime entC8w.startTime) ∧
    overlapDurationOf candC8w.startTime candC8w.endTime entC8w.startTime entC8w.endTime ≤
      minutesCeil (min (candC8w.endTime - candC8w.startTime)
        (entC8w.endTime - entC8w.startTime)) :=
  C8_overlap_minutes_amended candC8w entC8w (by decide) (by decide) (by decide)

/-! ## Claim C10 -/

/-- C10: `hasConflict` is true iff `conflictingSchedules` is non-empty;
the no-conflict result is exactly the fixed record (false, empty list,
severity "low", the fixed suggestion text, no alternative slots); and
alternative slots are present only when a conflict exists. -/
theorem C10_conflict_info_shape (schedule : PartialSchedule)
    (existing : List SelectSchedule) :
    ((detectScheduleConflicts schedule existing).hasConflict = true ↔
      (detectScheduleConflicts schedule existing).conflictingSchedules ≠ []) ∧
    ((detectScheduleConflicts schedule existing).hasConflict = false →
      detectScheduleConflicts schedule existing =
        { hasConflict := false
          conflictingSchedules := []
          severity := "low"
          suggestion := "没有检测到时间冲突。"
          alternativeTimes := none }) ∧
    ((detectScheduleConflicts schedule existing).alternativeTimes ≠ none →
      (detectScheduleConflicts schedule existing).hasConflict = true) := by
  rcases hEmp : (existing.filter (conflictFilter schedule)).isEmpty with _ | _
  · rw [detect_eq_conflict schedule existing hEmp]
    have hne : existing.filter (conflictFilter schedule) ≠ [] := by
      intro hnil
      rw [hnil] at hEmp
      simp at hEmp
    simp [hne]
  · rw [detect_eq_noConflict schedule existing hEmp]
    simp [noConflictInfo]

/-- Candidate used by the C10 witness. -/
def candC10 : PartialSchedule := ⟨none, 0, 100⟩

/-- Witness for `C10_conflict_info_shape` on a concrete no-conflict input. -/
theorem C10_conflict_info_shape_witness :
    ((detectScheduleConflicts candC10 []).hasConflict = true ↔
      (detectScheduleConflicts candC10 []).conflictingSchedules ≠ []) ∧
    ((detectScheduleConflicts candC10 []).hasConflict = false →
      detectScheduleConflicts candC10 [] =
        { hasConflict := false
          conflictingSchedules := []
          severity := "low"
          suggestion := "没有检测到时间冲突。"
          alternativeTimes := none }) ∧
    ((detectScheduleConflicts candC10 []).alternativeTimes ≠ none →
      (detectScheduleConflicts candC10 []).hasConflict = true) :=
  C10_conflict_info_shape candC10 []

/-! ## Claim C4 -/

theorem altLoop_length_le (existing : List SelectSchedule) (dur dEnd : Int) :
    ∀ (ts : List Int) (acc : List AltTime), acc.length < 3 →
      (altLoop existing dur dEnd ts acc).length ≤ 3 := by
  intro ts
  induction ts with
  | nil =>
    intro acc h
    unfold altLoop
    omega
  | cons t ts ih =>
    intro acc h
    simp only [altLoop]
    split_ifs with h1 h2
    · simp only [List.length_append, List.length_cons, List.length_nil]
      omega
    · refine ih _ ?_
      simp only [List.length_append, List.length_cons, List.length_nil] at h2 ⊢
      omega
    · exact ih _ h

theorem altLoop_mem (existing : List SelectSchedule) (dur dEnd : Int) :
    ∀ (ts : List Int) (acc : List AltTime) (s : AltTime),
      s ∈ altLoop existing dur dEnd ts acc →
      s ∈ acc ∨ ∃ t, t ∈ ts ∧
        s = ⟨t, t + dur, benefitFor (getHoursMs t)⟩ ∧
        hasConflictAt t (t + dur) existing = false ∧ t + dur ≤ dEnd := by
  intro ts
  induction ts with
  | nil =>
    intro acc s hs
    left
    simpa [altLoop] using hs
  | cons t ts ih =>
    intro acc s hs
    simp only [altLoop] at hs
    split_ifs at hs with h1 h2
    · rcases List.mem_append.mp hs with h | h
      · exact Or.inl h
      · exact Or.inr ⟨t, by simp, by simpa using h, h1.1, h1.2⟩
    · rcases ih _ s hs with h | ⟨u, hu, rest⟩
      · rcases List.mem_append.mp h with h' | h'
        · exact Or.inl h'
        · exact Or.inr ⟨t, by simp, by simpa using h', h1.1, h1.2⟩
      · exact Or.inr ⟨u, by simp [hu], rest⟩
    · rcases ih _ s hs with h | ⟨u, hu, rest⟩
      · exact Or.inl h
      · exact Or.inr ⟨u, by simp [hu], rest⟩

/-- C4: whenever a conflict is found, the result's alternative slots are
exactly the slot search's output; the search returns at most 3 slots, and
every returned slot has the candidate's duration, starts on one of the 18
30-minute steps of the fixed 09:00–18:00 window of the candidate's day,
ends no later than 18:00, strictly overlaps no existing entry, and carries
the benefit label of its starting hour's bucket. -/
theorem C4_alternative_slots (schedule : PartialSchedule)
    (existing : List SelectSchedule) :
    ((detectScheduleConflicts schedule existing).hasConflict = true →
      (detectScheduleConflicts schedule existing).alternativeTimes =
        some (generateAlternativeTimes schedule existing)) ∧
    (generateAlternativeTimes schedule existing).length ≤ 3 ∧
    (∀ s ∈ generateAlternativeTimes schedule existing,
      s.endTime - s.startTime = schedule.endTime - schedule.startTime ∧
      (∃ k : Nat, k < 18 ∧
        s.startTime =
          floorDayMs schedule.startTime + 9 * 3600000 + 1800000 * (k : Int)) ∧
      s.endTime ≤ floorDayMs schedule.startTime + 18 * 3600000 ∧
      (∀ e ∈ existing,
        specStrictOverlap s.startTime s.endTime e.startTime e.endTime = false) ∧
      s.benefit = benefitFor (getHoursMs s.startTime)) := by
  refine ⟨?_, ?_, ?_⟩
  · intro h
    rcases hEmp : (existing.filter (conflictFilter schedule)).isEmpty with _ | _
    · rw [detect_eq_conflict schedule existing hEmp]
    · rw [detect_eq_noConflict schedule existing hEmp] at h
      simp [noConflictInfo] at h
  · unfold generateAlternativeTimes
    exact altLoop_length_le _ _ _ _ [] (by simp)
  · intro s hs
    simp only [generateAlternativeTimes] at hs
    rcases altLoop_mem _ _ _ _ _ _ hs with h | ⟨t, ht, hseq, hnc, hend⟩
    · simp at h
    · have hex : ∃ a : ℕ, a < 18 ∧
          floorDayMs schedule.startTime + 32400000 + 1800000 * (a : Int) = t := by
        obtain ⟨z, ⟨a, ha, rfl⟩, hz⟩ := by simpa using ht
        exact ⟨a, ha, hz⟩
      obtain ⟨k, hk, hteq⟩ := hex
      subst hseq
      dsimp only
      refine ⟨by omega, ⟨k, hk, by omega⟩, by omega, ?_, rfl⟩
      intro e he
      unfold hasConflictAt at hnc
      have hno : overlapsJS t (t + (schedule.endTime - schedule.startTime))
          e.startTime e.endTime = false := by
        rw [List.any_eq_false] at hnc
        simpa using hnc e he
      rcases hb : specStrictOverlap t (t + (schedule.endTime - schedule.startTime))
          e.startTime e.endTime with _ | _
      · rfl
      · exact absurd (spec_imp_overlapsJS _ _ _ _ hb) (by simp [hno])

/-- Candidate used by the C4 witness: 09:00–10:00. -/
def candC4 : PartialSchedule := ⟨none, 32400000, 36000000⟩

/-- Existing entry used by the C4 witness: 09:30–10:30. -/
def entC4 : SelectSchedule := ⟨1, 1, "A", 34200000, 37800000, "normal"⟩

/-- Witness for `C4_alternative_slots` at a concrete conflicted input. -/
theorem C4_alternative_slots_witness :
    (generateAlternativeTimes candC4 [entC4]).length ≤ 3 ∧
    (detectScheduleConflicts candC4 [entC4]).alternativeTimes =
      some (generateAlternativeTimes candC4 [entC4]) :=
  ⟨(C4_alternative_slots candC4 [entC4]).2.1,
   (C4_alternative_slots candC4 [entC4]).1 (by decide)⟩

/-! ## Claim C3 -/

/-- Client of the C3 counterexample. -/
def cC3 : ConnectedClient := ⟨true, "web", "d1", none, some ⟨true, "top-right", 5000⟩⟩

/-- Service state of the C3 counterexample: one open device `d1`. -/
def stC3 : ServiceState := ⟨[("d1", cC3)], []⟩

/-- A schedule row owned by user 1. -/
def schC3a : Schedule := ⟨1, 1, "mine", 100, 200, "normal"⟩

/-- A schedule row owned by user 2. -/
def schC3b : Schedule := ⟨2, 2, "other", 200, 300, "normal"⟩

/-- C3, counterexample: the sync response for device `d1` contains rows
owned by two different users (user 1 and user 2) — the query is not
restricted to any requesting user's entries; indeed the connection record
carries no user at all. -/
theorem C3_counterexample :
    (handleSyncRequest stC3 (.ok [schC3a, schC3b]) "d1" (some 0) 500).2 =
      [("d1", OutMsg.syncResponse "d1" "web" 500 [schC3a, schC3b] 500),
       ("d1", OutMsg.notif (syncDonePayload 500))] ∧
    schC3a.userId ≠ schC3b.userId := by
  refine ⟨by decide, by decide⟩

/-- C3, amended: for a registered device with an open transport,
`handleSyncRequest` replies to the requesting device only, with a
`sync_response` carrying exactly the rows whose `startTime` is at or
after the window start (`sinceTimestamp`, or start of the current day
when absent) — with no owner restriction — plus the fresh server-clock
`lastSyncTimestamp`; only the requester's registry entry is updated. -/
theorem C3_sync_request_amended (st : ServiceState) (rows : List Schedule)
    (d : String) (c : ConnectedClient) (since : Option Int) (now : Int)
    (hc : mapGet st.clients d = some c) (hopen : c.isOpen = true) :
    handleSyncRequest st (.ok rows) d since now =
      ({ st with
          clients := mapSet st.clients d { c with lastSyncTimestamp := some now } },
       [(d, OutMsg.syncResponse d c.platform now
          (rows.filter (fun s => decide (syncWindowStart since now ≤ s.startTime))) now),
        (d, OutMsg.notif (syncDonePayload now))]) ∧
    ∀ x ∈ (handleSyncRequest st (.ok rows) d since now).2, x.1 = d := by
  have heq : handleSyncRequest st (.ok rows) d since now =
      ({ st with
          clients := mapSet st.clients d { c with lastSyncTimestamp := some now } },
       [(d, OutMsg.syncResponse d c.platform now
          (rows.filter (fun s => decide (syncWindowStart since now ≤ s.startTime))) now),
        (d, OutMsg.notif (syncDonePayload now))]) := by
    unfold handleSyncRequest
    rw [hc]
    simp [hopen, getSchedulesForSync]
  refine ⟨heq, ?_⟩
  rw [heq]
  intro x hx
  rcases List.mem_cons.mp hx with h | h
  · rw [h]
  · rcases List.mem_cons.mp h with h' | h'
    · rw [h']
    · simp at h'

/-- Client of the C3 witness. -/
def cC3w : ConnectedClient := ⟨true, "desktop", "d9", none, none⟩

/-- Service state of the C3 witness. -/
def stC3w : ServiceState := ⟨[("d9", cC3w)], []⟩

/-- Schedule row of the C3 witness. -/
def schC3w : Schedule := ⟨7, 3, "w", 1000, 2000, "normal"⟩

/-- Witness for `C3_sync_request_amended` at a concrete state. -/
theorem C3_sync_request_amended_witness :
    handleSyncRequest stC3w (.ok [schC3w]) "d9" none 86400500 =
      ({ stC3w with
          clients := mapSet stC3w.clients "d9"
            { cC3w with lastSyncTimestamp := some 86400500 } },
       [("d9", OutMsg.syncResponse "d9" cC3w.platform 86400500
          ([schC3w].filter
            (fun s => decide (syncWindowStart none 86400500 ≤ s.startTime))) 86400500),
        ("d9", OutMsg.notif (syncDonePayload 86400500))]) ∧
    ∀ x ∈ (handleSyncRequest stC3w (.ok [schC3w]) "d9" none 86400500).2, x.1 = "d9" :=
  C3_sync_request_amended stC3w [schC3w] "d9" cC3w none 86400500 (by decide) (by decide)

/-! ## Claim C5 -/

/-- C5: a `handleSyncUpdate` step from a registered open device sends the
`sync_update` carrying the changes to every other registered device whose
transport is open, and sends no `sync_update` to the originating device
itself (the originator only gets a plain confirmation notification). -/
theorem C5_sync_update_broadcast (st : ServiceState) (d : String)
    (c : ConnectedClient) (changes : List SyncChange) (now : Int)
    (hc : mapGet st.clients d = some c) (hopen : c.isOpen = true) :
    (∀ p ∈ st.clients, p.1 ≠ d → p.2.isOpen = true →
      (p.1, OutMsg.syncUpdate d c.platform now changes) ∈
        (handleSyncUpdate st d changes now).2) ∧
    (∀ x ∈ (handleSyncUpdate st d changes now).2,
      x.1 = d → x.2.isSyncUpd = false) := by
  have hout : (handleSyncUpdate st d changes now).2 =
      (st.clients.filterMap (fun other =>
        if other.1 != d && other.2.isOpen then
          some (other.1, OutMsg.syncUpdate d c.platform now changes)
        else none)) ++ [(d, OutMsg.notif (syncUpdateDonePayload now))] := by
    unfold handleSyncUpdate
    rw [hc]
    simp [hopen]
  rw [hout]
  constructor
  · intro p hp hne hop
    refine List.mem_append_left _ ?_
    exact List.mem_filterMap.mpr
      ⟨p, hp, by rw [if_pos (by simp [bne_iff_ne, hne, hop])]⟩
  · intro x hx hxd
    rcases List.mem_append.mp hx with h | h
    · obtain ⟨p, hp, hfp⟩ := List.mem_filterMap.mp h
      by_cases hcnd : (p.1 != d && p.2.isOpen) = true
      · rw [if_pos hcnd] at hfp
        have hx1 : x.1 = p.1 := by
          cases hfp
          rfl
        have : p.1 ≠ d := by
          simp only [Bool.and_eq_true, bne_iff_ne] at hcnd
          exact hcnd.1
        exact absurd (hx1 ▸ hxd) this
      · rw [if_neg hcnd] at hfp
        cases hfp
    · have hx2 : x = (d, OutMsg.notif (syncUpdateDonePayload now)) := by
        simpa using h
      rw [hx2]
      rfl

/-- First client of the C5 witness state. -/
def cC5a : ConnectedClient := ⟨true, "web", "d1", none, none⟩

/-- Second client of the C5 witness state. -/
def cC5b : ConnectedClient := ⟨true, "mobile", "d2", none, none⟩

/-- Service state of the C5 witness: open devices `d1` and `d2`. -/
def stC5 : ServiceState := ⟨[("d1", cC5a), ("d2", cC5b)], []⟩

/-- Change record of the C5 witness. -/
def chC5 : SyncChange := ⟨"create", "payload", "t0"⟩

/-- Witness for `C5_sync_update_broadcast`: D1 sends an update while D2 is
open — D2 is in the fan-out, D1 gets no `sync_update` back. -/
theorem C5_sync_update_broadcast_witness :
    (∀ p ∈ stC5.clients, p.1 ≠ "d1" → p.2.isOpen = true →
      (p.1, OutMsg.syncUpdate "d1" cC5a.platform 0 [chC5]) ∈
        (handleSyncUpdate stC5 "d1" [chC5] 0).2) ∧
    (∀ x ∈ (handleSyncUpdate stC5 "d1" [chC5] 0).2,
      x.1 = "d1" → x.2.isSyncUpd = false) :=
  C5_sync_update_broadcast stC5 "d1" cC5a [chC5] 0 (by decide) (by decide)

/-! ## Claim C6 -/

/-- C6: when the datastore query for a sync request throws, the error is
converted into the single "sync failed" notification sent to the
requesting device only, and the whole service state — every device's
registry entry and `lastSyncTimestamp` included — is left unchanged;
the requester's `lastSyncTimestamp` is written only on the success path. -/
theorem C6_sync_failure_isolation (st : ServiceState) (d : String)
    (c : ConnectedClient) (since : Option Int) (now : Int)
    (hc : mapGet st.clients d = some c) (hopen : c.isOpen = true) :
    handleSyncRequest st (.error ()) d since now =
      (st, [(d, OutMsg.notif (syncFailPayload now))]) ∧
    ∀ rows, (handleSyncRequest st (.ok rows) d since now).1.clients =
      mapSet st.clients d { c with lastSyncTimestamp := some now } := by
  constructor
  · unfold handleSyncRequest
    rw [hc]
    simp [hopen]
  · intro rows
    unfold handleSyncRequest
    rw [hc]
    simp [hopen]

/-- Client of the C6 witness. -/
def cC6 : ConnectedClient := ⟨true, "web", "d1", some 3, none⟩

/-- Other client of the C6 witness, untouched by the failure. -/
def cC6b : ConnectedClient := ⟨true, "mobile", "d2", some 4, none⟩

/-- Service state of the C6 witness. -/
def stC6 : ServiceState := ⟨[("d1", cC6), ("d2", cC6b)], []⟩

/-- Witness for `C6_sync_failure_isolation` at a concrete failing request. -/
theorem C6_sync_failure_isolation_witness :
    handleSyncRequest stC6 (.error ()) "d1" none 7 =
      (stC6, [("d1", OutMsg.notif (syncFailPayload 7))]) ∧
    ∀ rows, (handleSyncRequest stC6 (.ok rows) "d1" none 7).1.clients =
      mapSet stC6.clients "d1" { cC6 with lastSyncTimestamp := some 7 } :=
  C6_sync_failure_isolation stC6 "d1" cC6 none 7 (by decide) (by decide)

/-! ## Claim C7 -/

/-- Client of the C7 runs. -/
def cC7 : ConnectedClient := ⟨true, "web", "d1", none, none⟩

/-- Initial service state of the C7 runs: open device `d1`, empty history. -/
def stC7 : ServiceState := ⟨[("d1", cC7)], []⟩

/-- First change record of the C7 runs. -/
def chC7a : SyncChange := ⟨"create", "a", "t1"⟩

/-- Second change record of the C7 runs. -/
def chC7b : SyncChange := ⟨"update", "b", "t2"⟩

/-- C7, counterexample: no fixed bound `n` makes the stored history an
append-then-keep-newest-`n` log. One call with two records leaves both in
the log (forcing `n ≥ 2`), while two successive one-record calls leave
only the second record (forcing `n ≤ 1`): the code overwrites the per-
device log instead of appending to a bounded one. -/
theorem C7_counterexample :
    ¬ ∃ n : Nat,
      mapGet (handleSyncUpdate stC7 "d1" [chC7a, chC7b] 0).1.syncHistory "d1" =
        some (specAppendBounded n [] [chC7a, chC7b]) ∧
      mapGet (handleSyncUpdate
          (handleSyncUpdate stC7 "d1" [chC7a] 0).1 "d1" [chC7b] 1).1.syncHistory "d1" =
        some (specAppendBounded n [chC7a] [chC7b]) := by
  rintro ⟨n, h1, h2⟩
  have e1 : mapGet (handleSyncUpdate stC7 "d1" [chC7a, chC7b] 0).1.syncHistory "d1" =
      some [chC7a, chC7b] := by decide
  have e2 : mapGet (handleSyncUpdate
      (handleSyncUpdate stC7 "d1" [chC7a] 0).1 "d1" [chC7b] 1).1.syncHistory "d1" =
      some [chC7b] := by decide
  rw [e1] at h1
  rw [e2] at h2
  have l1 := congrArg (fun o => (o.getD []).length) h1
  have l2 := congrArg (fun o => (o.getD []).length) h2
  simp [specAppendBounded] at l1 l2
  omega

/-- C7, amended: for a registered open device, each `handleSyncUpdate`
call stores the incoming changes as the device's entire change log
(overwriting the previous log, so only the most recent call's records are
retained), and leaves every other device's log unchanged. -/
theorem C7_history_amended (st : ServiceState) (d : String)
    (c : ConnectedClient) (changes : List SyncChange) (now : Int)
    (hc : mapGet st.clients d = some c) (hopen : c.isOpen = true) :
    mapGet (handleSyncUpdate st d changes now).1.syncHistory d = some changes ∧
    ∀ k, k ≠ d → mapGet (handleSyncUpdate st d changes now).1.syncHistory k =
      mapGet st.syncHistory k := by
  have hst : (handleSyncUpdate st d changes now).1 =
      { st with syncHistory := mapSet st.syncHistory d changes } := by
    unfold handleSyncUpdate
    rw [hc]
    simp [hopen]
  rw [hst]
  exact ⟨mapGet_mapSet_self _ _ _, fun k hk => mapGet_mapSet_ne _ _ _ _ hk⟩

/-- Client of the C7 witness. -/
def cC7w : ConnectedClient := ⟨true, "desktop", "d3", none, none⟩

/-- Service state of the C7 witness: a previous log for `d3` and a log for
`d4` that must survive unchanged. -/
def stC7w : ServiceState :=
  ⟨[("d3", cC7w)], [("d3", [chC7a]), ("d4", [chC7b])]⟩

/-- Witness for `C7_history_amended` at a concrete state with a prior log. -/
theorem C7_history_amended_witness :
    mapGet (handleSyncUpdate stC7w "d3" [chC7b] 2).1.syncHistory "d3" =
      some [chC7b] ∧
    ∀ k, k ≠ "d3" → mapGet (handleSyncUpdate stC7w "d3" [chC7b] 2).1.syncHistory k =
      mapGet stC7w.syncHistory k :=
  C7_history_amended stC7w "d3" cC7w [chC7b] 2 (by decide) (by decide)

/-! ## Claim C9 -/

/-- C9: the registry keeps at most one entry per device id — `Map.set` on
a registry with distinct keys yields distinct keys, registering an
already-registered id replaces the entry (same size, lookup returns the
new value) — and after registering then unregistering an id, a broadcast
over open connections sends that id nothing. -/
theorem C9_registry (m : List (String × ConnectedClient)) (k : String)
    (v : ConnectedClient) (hist : List (String × List SyncChange))
    (ptype title msg : String) (prio : Option String) (now : Int)
    (hnd : (m.map Prod.fst).Nodup) :
    ((mapSet m k v).map Prod.fst).Nodup ∧
    mapGet (mapSet m k v) k = some v ∧
    (k ∈ m.map Prod.fst → (mapSet m k v).length = m.length) ∧
    (∀ x ∈ broadcast ⟨mapDelete (mapSet m k v) k, hist⟩ ptype title msg prio now,
      x.1 ≠ k) := by
  refine ⟨nodup_keys_mapSet m k v hnd, mapGet_mapSet_self m k v,
    fun h => length_mapSet_of_mem m k v h, ?_⟩
  intro x hx
  simp only [broadcast] at hx
  obtain ⟨p, hp, hfp⟩ := List.mem_filterMap.mp hx
  have hne := mem_mapDelete_key_ne _ _ _ hp
  by_cases ho : p.2.isOpen = true
  · rw [if_pos ho] at hfp
    have : x.1 = p.1 := by
      cases hfp
      rfl
    rw [this]
    exact hne
  · rw [if_neg ho] at hfp
    cases hfp

/-- Pre-existing registry entry of the C9 witness. -/
def cC9a : ConnectedClient := ⟨true, "web", "d1", none, some ⟨true, "top-right", 5000⟩⟩

/-- Replacement registry entry of the C9 witness (a reconnect of `d1`). -/
def cC9b : ConnectedClient := ⟨true, "mobile", "d1", none, some ⟨false, "top-left", 3000⟩⟩

/-- Registry of the C9 witness: `d1` already registered plus another id. -/
def regC9 : List (String × ConnectedClient) :=
  [("d1", cC9a), ("d2", ⟨true, "desktop", "d2", none, none⟩)]

/-- Witness for `C9_registry`: re-registering `d1` replaces its entry, and
after deleting `d1` a broadcast reaches no recipient named `d1`. -/
theorem C9_registry_witness :
    ((mapSet regC9 "d1" cC9b).map Prod.fst).Nodup ∧
    mapGet (mapSet regC9 "d1" cC9b) "d1" = some cC9b ∧
    ("d1" ∈ regC9.map Prod.fst → (mapSet regC9 "d1" cC9b).length = regC9.length) ∧
    (∀ x ∈ broadcast ⟨mapDelete (mapSet regC9 "d1" cC9b) "d1", []⟩
        "create" "t" "m" none 0, x.1 ≠ "d1") :=
  C9_registry regC9 "d1" cC9b [] "create" "t" "m" none 0 (by decide)

end WebSchedly
